import Mathlib

/-!
Shallow embedding of the dbtmon monitor engine (`src/dbtmon/monitor.py`),
the module `__main__.py` actually drives.  Machine floats are modelled by
rationals, Python exceptions by an explicit error component threaded through
each state-mutating operation, and Python's insertion-ordered dict by an
association list.  The Python string primitives are modelled by structurally
recursive functions over the character list of a string (Python string
indices are code points, as are Lean `Char` lists), so that every operation
evaluates by kernel reduction.
-/

set_option maxRecDepth 4000

/-- Error values raised by the Python code paths we model:
`ValueError` (with its message), `KeyError` (on a dict lookup by task id) and
`TypeError` (arithmetic on `None`). -/
inductive PyError where
  | valueError : String → PyError
  | keyError : Int → PyError
  | typeError : PyError
  deriving DecidableEq, Repr

/-- Python `s.startswith(pre)`. -/
def pyStartsWith (s pre : String) : Bool :=
  pre.toList.isPrefixOf s.toList

/-- Worker for `s.split(sep)` with nonempty `sep`: fuel-driven scan that
emits the accumulated piece at each non-overlapping occurrence of `sep`.
The fuel is at least the remaining length plus one, so it never runs out. -/
def pySplitOnAux (sep : List Char) : Nat → List Char → List Char →
    List (List Char)
  | 0, rest, acc => [acc.reverse ++ rest]
  | fuel + 1, rest, acc =>
    match rest with
    | [] => [acc.reverse]
    | c :: cs =>
      if sep.isPrefixOf rest then
        acc.reverse :: pySplitOnAux sep fuel (rest.drop sep.length) []
      else
        pySplitOnAux sep fuel cs (c :: acc)

/-- Python `s.split(sep)` for the nonempty separators this program uses. -/
def pySplitOn (s sep : String) : List String :=
  (pySplitOnAux sep.toList (s.toList.length + 1) s.toList []).map String.mk

/-- Python `s.split(sep, maxsplit=1)`. -/
def splitFirst (s sep : String) : List String :=
  match pySplitOn s sep with
  | [] => [s]
  | [x] => [x]
  | x :: rest => [x, String.intercalate sep rest]

/-- Worker for Python's `sub in s`. -/
def containsSubAux (sub : List Char) : List Char → Bool
  | [] => sub.isPrefixOf []
  | c :: cs => sub.isPrefixOf (c :: cs) || containsSubAux sub cs

/-- Python `sub in s`. -/
def strContains (s sub : String) : Bool :=
  containsSubAux sub.toList s.toList

/-- Worker for `s.replace(pat, rep)` with nonempty `pat`, fuel-driven. -/
def pyReplaceAux (pat rep : List Char) : Nat → List Char → List Char
  | 0, rest => rest
  | fuel + 1, rest =>
    match rest with
    | [] => []
    | c :: cs =>
      if pat.isPrefixOf rest then
        rep ++ pyReplaceAux pat rep fuel (rest.drop pat.length)
      else
        c :: pyReplaceAux pat rep fuel cs

/-- Python `s.replace(pat, rep)` for nonempty `pat`: non-overlapping,
left to right. -/
def pyReplace (s pat rep : String) : String :=
  String.mk (pyReplaceAux pat.toList rep.toList (s.toList.length + 1) s.toList)

/-- Worker for argumentless `s.split()`: whitespace runs separate tokens,
no empty tokens are produced. -/
def splitWsAux : List Char → List Char → List (List Char)
  | [], acc => if acc.isEmpty then [] else [acc.reverse]
  | c :: cs, acc =>
    if c.isWhitespace then
      if acc.isEmpty then splitWsAux cs [] else acc.reverse :: splitWsAux cs []
    else splitWsAux cs (c :: acc)

/-- Python `s.split()` with no argument. -/
def pySplitWs (s : String) : List String :=
  (splitWsAux s.toList []).map String.mk

/-- Drop matching characters from the right of a list. -/
def dropRightWhileList (l : List Char) (p : Char → Bool) : List Char :=
  (l.reverse.dropWhile p).reverse

/-- Python `s.rstrip(c)` for a single strip character. -/
def pyRstrip (s : String) (c : Char) : String :=
  String.mk (dropRightWhileList s.toList (fun d => d = c))

/-- Python `s.strip(c)` for a single strip character. -/
def pyStrip (s : String) (c : Char) : String :=
  String.mk (dropRightWhileList (s.toList.dropWhile (fun d => d = c))
    (fun d => d = c))

/-- Whitespace stripping, Python `s.strip()` as used by `int()`/`float()`. -/
def pyTrimList (l : List Char) : List Char :=
  dropRightWhileList (l.dropWhile Char.isWhitespace) Char.isWhitespace

/-- Python slicing `s[:n]`. -/
def strTake (s : String) (n : Nat) : String :=
  String.mk (s.toList.take n)

/-- Python slicing `s[n:]`. -/
def strDrop (s : String) (n : Nat) : String :=
  String.mk (s.toList.drop n)

/-- Python slicing `s[:-1]`. -/
def strDropLast (s : String) : String :=
  String.mk s.toList.dropLast

/-- Python `s.ljust(w)`. -/
def ljust (s : String) (w : Nat) : String :=
  s ++ String.mk (List.replicate (w - s.length) ' ')

/-- Value of a nonempty decimal-digit string. -/
def digitsVal (cs : List Char) : Nat :=
  cs.foldl (fun a c => a * 10 + (c.toNat - 48)) 0

/-- Python `int(s)`: strip whitespace, optional sign, decimal digits.
(Digit-grouping underscores and non-ASCII digits are not modelled; the
program only feeds plain ordinals here.) -/
def pyInt? (s : String) : Option Int :=
  let cs := pyTrimList s.toList
  match cs with
  | '+' :: rest =>
    if !rest.isEmpty && rest.all Char.isDigit then some (digitsVal rest) else none
  | '-' :: rest =>
    if !rest.isEmpty && rest.all Char.isDigit then some (-(digitsVal rest : Int)) else none
  | _ =>
    if !cs.isEmpty && cs.all Char.isDigit then some (digitsVal cs) else none

/-- Python `float(s)` restricted to finite decimal literals (optional sign,
digits, optional fractional part), the only shapes the upstream `... in
<float>s` field ever carries; exponents, `inf`/`nan` and underscores are not
modelled. -/
def pyFloat? (s : String) : Option ℚ :=
  let cs := pyTrimList s.toList
  let signBody : Int × List Char :=
    match cs with
    | '+' :: rest => (1, rest)
    | '-' :: rest => (-1, rest)
    | _ => (1, cs)
  let sign := signBody.1
  let body := signBody.2
  match pySplitOnAux ['.'] (body.length + 1) body [] with
  | [ip] =>
    if !ip.isEmpty && ip.all Char.isDigit then
      some ((sign : ℚ) * (digitsVal ip : ℚ))
    else none
  | [ip, fp] =>
    if (ip.all Char.isDigit && fp.all Char.isDigit)
        && !(ip.isEmpty && fp.isEmpty) then
      some ((sign : ℚ) *
        ((digitsVal ip : ℚ) + (digitsVal fp : ℚ) / (10 ^ fp.length : ℚ)))
    else none
  | _ => none

/-- The four colour control sequences stripped from every status line
(`COLOR_CONTROL_CHARS` in `monitor.py`). -/
def COLOR_CONTROL_CHARS : List String :=
  ["\x1b[0m", "\x1b[31m", "\x1b[32m", "\x1b[33m"]

/-- The fields of `DBTThread` (monitor.py).  Times are rationals standing for
`time.time()` captures; `none` models Python `None`. -/
structure DBTThread where
  timestamp : String
  progress : Int
  total : Int
  message : String
  status : String
  started_at : Option ℚ
  runtime : Option ℚ := none
  exit_code : Int := 0
  min_concurrent_threads : Int := 999
  max_concurrent_threads : Int := 0
  blocking_started_at : Option ℚ := none
  deriving DecidableEq, Repr

/-- Two-digit zero padding, Python's `f-string` `:02` for the small
nonnegative numbers this program formats. -/
def pad2 (n : Int) : String :=
  let s := toString n
  if s.length < 2 then "0" ++ s else s

/-- `DBTThread.get_timestamp` at its default arguments (the only way this
repository calls it): `strftime("%H:%M:%S", gmtime(value))` plus truncated
hundredths, with `gmtime`/`%` taken at their floor semantics. -/
def getTimestamp (value : ℚ) : String :=
  let secs : Int := Int.floor value
  let h := (secs.fdiv 3600).emod 24
  let m := (secs.fdiv 60).emod 60
  let sec := secs.emod 60
  let hundredths : Int := Int.floor ((value - (Int.floor value : ℚ)) * 100)
  pad2 h ++ ":" ++ pad2 m ++ ":" ++ pad2 sec ++ "." ++ pad2 hundredths

/-- The fallback operand of `DBTThread.get_runtime`:
`time.time() - self.started_at`, a `TypeError` when `started_at` is `None`. -/
def liveElapsed (now : ℚ) (t : DBTThread) : Except PyError ℚ :=
  match t.started_at with
  | some st => Except.ok (now - st)
  | none => Except.error PyError.typeError

/-- The elapsed time chosen by `DBTThread.get_runtime`:
`self.runtime or (time.time() - self.started_at)` — Python `or` falls back
when `runtime` is `None` *or* zero. -/
def elapsedTime (now : ℚ) (t : DBTThread) : Except PyError ℚ :=
  match t.runtime with
  | some r => if r = 0 then liveElapsed now t else Except.ok r
  | none => liveElapsed now t

/-- `DBTThread.get_runtime`. -/
def getRuntime (now : ℚ) (t : DBTThread) : Except PyError String :=
  (elapsedTime now t).map getTimestamp

/-- `DBTThread.get_raw_blocking_time`: the subtraction, with the `TypeError`
handler returning `0.0` when any operand is `None`. -/
def getRawBlockingTime (t : DBTThread) : ℚ :=
  match t.runtime, t.blocking_started_at, t.started_at with
  | some r, some b, some st => r - (b - st)
  | _, _, _ => 0

/-- `DBTThread.get_blocking_time`. -/
def getBlockingTime (t : DBTThread) : String :=
  getTimestamp (getRawBlockingTime t)

/-- `DBTThread.get_status`. -/
def getStatus (t : DBTThread) : String :=
  match t.status with
  | "RUN" => "RUN"
  | "SUCCESS" => "\x1b[32mSUCCESS\x1b[0m"
  | "ERROR" => "\x1b[31mERROR\x1b[0m"
  | "SKIP" => "\x1b[33mSKIP\x1b[0m"
  | _ => "UNKNOWN"

/-- `DBTThread.__str__`; fallible because the `RUN` and default arms call
`get_runtime`. -/
def threadStr (now : ℚ) (t : DBTThread) : Except PyError String :=
  let stem := t.timestamp ++ " " ++ toString t.progress ++ " of " ++
    toString t.total ++ " " ++ t.message
  match t.status with
  | "RUN" => (getRuntime now t).map (fun rt => stem ++ " [ELAPSED: " ++ rt ++ "]")
  | "SKIP" => Except.ok (stem ++ " [" ++ getStatus t ++ "]")
  | _ => (getRuntime now t).map (fun rt =>
      stem ++ " [" ++ getStatus t ++ " " ++ toString t.exit_code ++ "] in " ++ rt)

/-- The mutable state of `DBTMonitor`: the insertion-ordered dict of active
threads keyed by id, the archive `completed`, and the `rewind` counter. -/
structure DBTMonitor where
  threads : List (Int × DBTThread)
  completed : List DBTThread
  rewind : Int
  deriving DecidableEq, Repr

/-- A fresh `DBTMonitor()`. -/
def mon0 : DBTMonitor := ⟨[], [], 0⟩

/-- `k in d` on the Python dict. -/
def dictHas (d : List (Int × DBTThread)) (k : Int) : Bool :=
  d.any (fun p => p.1 = k)

/-- `d[k]` as an optional lookup. -/
def dictGet? (d : List (Int × DBTThread)) (k : Int) : Option DBTThread :=
  (d.find? (fun p => p.1 = k)).map Prod.snd

/-- `d[k] = v`: replace in place when the key exists (insertion order kept),
else append. -/
def dictSet (d : List (Int × DBTThread)) (k : Int) (v : DBTThread) :
    List (Int × DBTThread) :=
  if dictHas d k then d.map (fun p => if p.1 = k then (k, v) else p)
  else d ++ [(k, v)]

/-- Field mutation on the record stored at `k`. -/
def dictModify (d : List (Int × DBTThread)) (k : Int) (f : DBTThread → DBTThread) :
    List (Int × DBTThread) :=
  d.map (fun p => if p.1 = k then (p.1, f p.2) else p)

/-- `del d[k]`. -/
def dictDel (d : List (Int × DBTThread)) (k : Int) : List (Int × DBTThread) :=
  d.filter (fun p => p.1 ≠ k)

/-- The `completed_threads` property: active entries whose status is not
`"RUN"` (only transiently nonempty, within one `process_next_line` call). -/
def completedThreads (s : DBTMonitor) : List (Int × DBTThread) :=
  s.threads.filter (fun p => p.2.status ≠ "RUN")

/-- The `running_threads` property. -/
def runningThreads (s : DBTMonitor) : List (Int × DBTThread) :=
  s.threads.filter (fun p => p.2.status = "RUN")

/-- The cursor-up control line `print(f"\033[{n}F")` emits. -/
def cursorUp (n : Int) : String :=
  "\x1b[" ++ toString n ++ "F"

/-- One thread's concurrency bookkeeping in `_print_threads`, with `n` the
number of running threads this cycle: refresh `blocking_started_at` whenever
`n` drops below the current minimum, then fold `n` into the min/max. -/
def bookkeep (now : ℚ) (n : Int) (t : DBTThread) : DBTThread :=
  let t1 := if n < t.min_concurrent_threads
    then { t with blocking_started_at := some now } else t
  { t1 with
    min_concurrent_threads := min t1.min_concurrent_threads n
    max_concurrent_threads := max t1.max_concurrent_threads n }

/-- The completed-section loop of `_print_threads`: format and pad each
terminal thread; a formatting exception aborts the loop. -/
def formatLines (now : ℚ) (width : Nat) :
    List DBTThread → List String × Option PyError
  | [] => ([], none)
  | t :: ts =>
    match threadStr now t with
    | Except.error e => ([], some e)
    | Except.ok str =>
      let rest := formatLines now width ts
      (ljust str width :: rest.1, rest.2)

/-- The running-section loop of `_print_threads`: per thread, print the
padded line then apply `bookkeep`; on a formatting exception the current and
later threads are left untouched.  Returns the updated entries, the printed
lines, and the error if one was raised. -/
def runningLoop (now : ℚ) (width : Nat) (n : Int) :
    List (Int × DBTThread) → List (Int × DBTThread) × List String × Option PyError
  | [] => ([], [], none)
  | (k, t) :: rest =>
    match threadStr now t with
    | Except.error e => ((k, t) :: rest, [], some e)
    | Except.ok str =>
      let r := runningLoop now width n rest
      ((k, bookkeep now n t) :: r.1, ljust str width :: r.2.1, r.2.2)

/-- Write the bookkeeping updates of the running loop back into the dict
(the Python loop mutates the shared records in place). -/
def mergeUpdates (d ups : List (Int × DBTThread)) : List (Int × DBTThread) :=
  d.map (fun p =>
    match ups.find? (fun q => q.1 = p.1) with
    | some q => q
    | none => p)

/-- `DBTMonitor._print_threads` for a given terminal `width`: emit the
cursor-up line when `rewind > 0`, print the terminal threads, print the
running threads while updating their concurrency bookkeeping, and finally set
`rewind` to the running count plus one (skipped if an exception was raised
mid-loop, as in Python). -/
def printThreads (now : ℚ) (width : Nat) (s : DBTMonitor) :
    DBTMonitor × List String × Option PyError :=
  let out0 : List String := if s.rewind > 0 then [cursorUp s.rewind] else []
  let fc := formatLines now width ((completedThreads s).map Prod.snd)
  match fc.2 with
  | some e => (s, out0 ++ fc.1, some e)
  | none =>
    let running := runningThreads s
    let n : Int := running.length
    let rl := runningLoop now width n running
    let s1 : DBTMonitor := { s with threads := mergeUpdates s.threads rl.1 }
    match rl.2.2 with
    | some e => (s1, out0 ++ fc.1 ++ rl.2.1, some e)
    | none => ({ s1 with rewind := n + 1 }, out0 ++ fc.1 ++ rl.2.1, none)

/-- Result of one `process_next_line` call: the state and printed lines at
return (or at the moment an exception escapes), and that exception if any. -/
structure StepResult where
  state : DBTMonitor
  output : List String
  error : Option PyError
  deriving DecidableEq, Repr

/-- A fresh thread as built by the `["RUN"]` arm. -/
def mkRunThread (timestamp : String) (p t : Int) (text : String) (now : ℚ) :
    DBTThread :=
  { timestamp := timestamp, progress := p, total := t, message := text
    status := "RUN", started_at := some now }

/-- A thread as built by the `["SKIP"]` arm (`started_at=None`). -/
def mkSkipThread (timestamp : String) (p t : Int) (text : String) : DBTThread :=
  { timestamp := timestamp, progress := p, total := t, message := text
    status := "SKIP", started_at := none }

/-- The `ValueError` message of the unknown-thread raise. -/
def threadNotFoundMsg (p : Int) : String :=
  "Thread " ++ toString p ++ " not found"

/-- The `Unknown status: '...'` warning line of the fallback arm. -/
def unknownStatusMsg (status : String) : String :=
  let q := String.singleton (Char.ofNat 39)
  "Unknown status: " ++ q ++ status ++ q

/-- The `match status.rstrip("]").split()` block of `process_next_line`:
returns the state at the end of the arm (or at the raise), the warning line
printed by the fallback arm, and the exception if one was raised.  The
`ERROR`/`SUCCESS` arms mutate field by field in source order, so a failing
`float`/`int` conversion leaves the earlier assignments in place. -/
def applyStatusCase (now : ℚ) (s : DBTMonitor) (timestamp : String) (p t : Int)
    (text status : String) : DBTMonitor × List String × Option PyError :=
  match pySplitWs (pyRstrip status ']') with
  | ["RUN"] =>
    ({ s with threads := dictSet s.threads p (mkRunThread timestamp p t text now) },
      [], none)
  | ["ERROR", "in", runtime] =>
    if dictHas s.threads p = false then
      (s, [], some (PyError.valueError (threadNotFoundMsg p)))
    else
      let s1 := { s with threads := dictModify s.threads p (fun th =>
        { th with timestamp := timestamp, message := text, status := "ERROR" }) }
      match pyFloat? (strDropLast runtime) with
      | none => (s1, [], some (PyError.valueError "could not convert string to float"))
      | some r =>
        ({ s1 with threads := dictModify s1.threads p (fun th =>
          { th with runtime := some r }) }, [], none)
  | ["SUCCESS", code, "in", runtime] =>
    if dictHas s.threads p = false then
      (s, [], some (PyError.valueError (threadNotFoundMsg p)))
    else
      let s1 := { s with threads := dictModify s.threads p (fun th =>
        { th with timestamp := timestamp, message := text, status := "SUCCESS" }) }
      match pyFloat? (strDropLast runtime) with
      | none => (s1, [], some (PyError.valueError "could not convert string to float"))
      | some r =>
        let s2 := { s1 with threads := dictModify s1.threads p (fun th =>
          { th with runtime := some r }) }
        match pyInt? code with
        | none => (s2, [], some (PyError.valueError "invalid literal for int"))
        | some c =>
          ({ s2 with threads := dictModify s2.threads p (fun th =>
            { th with exit_code := c }) }, [], none)
  | ["SKIP"] =>
    ({ s with threads := dictSet s.threads p (mkSkipThread timestamp p t text) },
      [], none)
  | _ => (s, [unknownStatusMsg status], none)

/-- The tail of `process_next_line` after the status fields parsed: apply the
status arm, render, then archive the thread unless it is still running.  The
lookup `self.threads[progress]` after rendering raises `KeyError` when the id
is absent. -/
def processEvent (now : ℚ) (width : Nat) (s : DBTMonitor) (timestamp : String)
    (p t : Int) (text status : String) : StepResult :=
  let a := applyStatusCase now s timestamp p t text status
  match a.2.2 with
  | some e => ⟨a.1, a.2.1, some e⟩
  | none =>
    let pr := printThreads now width a.1
    match pr.2.2 with
    | some e => ⟨pr.1, a.2.1 ++ pr.2.1, some e⟩
    | none =>
      match dictGet? pr.1.threads p with
      | none => ⟨pr.1, a.2.1 ++ pr.2.1, some (PyError.keyError p)⟩
      | some th =>
        if th.status = "RUN" then ⟨pr.1, a.2.1 ++ pr.2.1, none⟩
        else
          let s2 := { pr.1 with
            threads := dictDel pr.1.threads p,
            completed := pr.1.completed ++ [th] }
          ⟨s2, a.2.1 ++ pr.2.1, none⟩

/-- The field-parsing section of `process_next_line` on the colour-stripped
statement: slice off the timestamp, split at the first `[`, unpack the
`id of total rest...` tokens, convert `id` and `total` with `int(...)`. -/
def processStatusLine (now : ℚ) (width : Nat) (s : DBTMonitor)
    (stripped : String) : StepResult :=
  let timestamp := strTake stripped 8
  let full_message := strDrop stripped 9
  match splitFirst full_message "[" with
  | [message, status] =>
    match pySplitWs message with
    | progress :: _ :: total :: rest =>
      match pyInt? progress, pyInt? total with
      | some p, some t =>
        processEvent now width s timestamp p t (String.intercalate " " rest) status
      | _, _ => ⟨s, [], some (PyError.valueError "invalid literal for int")⟩
    | _ => ⟨s, [], some (PyError.valueError "not enough values to unpack")⟩
  | _ => ⟨s, [], some (PyError.valueError "not enough values to unpack")⟩

/-- Colour-control stripping applied to a status line. -/
def stripColors (stmt : String) : String :=
  COLOR_CONTROL_CHARS.foldl (fun acc c => pyReplace acc c "") stmt

/-- Does the stripped statement carry one of the four status markers? -/
def containsAnyMarker (stmt : String) : Bool :=
  strContains stmt "[RUN" || strContains stmt "[SUCCESS" ||
    strContains stmt "[ERROR" || strContains stmt "[SKIP"

/-- `DBTMonitor.process_next_line`.  `none` models the `statement is None`
guard; a line without the leading reset escape or without any status marker
is printed verbatim (after stripping, for the latter) and changes nothing. -/
def processNextLine (now : ℚ) (width : Nat) (s : DBTMonitor)
    (statement : Option String) : StepResult :=
  match statement with
  | none => ⟨s, [], none⟩
  | some stmt =>
    if pyStartsWith stmt "\x1b[0m" = false then ⟨s, [stmt], none⟩
    else
      let stripped := stripColors stmt
      if containsAnyMarker stripped = false then ⟨s, [stripped], none⟩
      else processStatusLine now width s stripped

/-- One record of the post-run blocking-model report. -/
structure BlockingRecord where
  name : String
  build_time : String
  blocking_time : String
  deriving DecidableEq, Repr

/-- The post-run diagnostic loop at the end of `DBTMonitor.run`: skip archived
threads whose minimum concurrency is not 1 or whose raw blocking time is under
60 seconds; otherwise report the last whitespace token of the period-stripped
message together with the formatted runtime and blocking time.  An exception
(empty unpack, or a `get_runtime` type error) aborts the loop. -/
def blockingReports (now : ℚ) : List DBTThread → List BlockingRecord × Option PyError
  | [] => ([], none)
  | t :: rest =>
    if t.min_concurrent_threads ≠ 1 then blockingReports now rest
    else if getRawBlockingTime t < 60 then blockingReports now rest
    else
      match (pySplitWs (pyStrip t.message '.')).getLast? with
      | none => ([], some (PyError.valueError "not enough values to unpack"))
      | some model_name =>
        match getRuntime now t with
        | Except.error e => ([], some e)
        | Except.ok bt =>
          let r := blockingReports now rest
          (⟨model_name, bt, getBlockingTime t⟩ :: r.1, r.2)

/-! ## Claim theorems -/

/-- C5: `get_raw_blocking_time` returns `runtime - (blocking_started_at -
started_at)` when all three operands are defined, and exactly zero when any
of them is undefined. -/
theorem C5_raw_blocking_formula (t : DBTThread) :
    (∀ r b st : ℚ, t.runtime = some r → t.blocking_started_at = some b →
      t.started_at = some st → getRawBlockingTime t = r - (b - st)) ∧
    (t.runtime = none ∨ t.blocking_started_at = none ∨ t.started_at = none →
      getRawBlockingTime t = 0) := by
  constructor
  · intro r b st hr hb hst
    simp [getRawBlockingTime, hr, hb, hst]
  · intro h
    unfold getRawBlockingTime
    rcases hru : t.runtime with _ | r <;>
      rcases hbl : t.blocking_started_at with _ | b <;>
      rcases hst : t.started_at with _ | st <;>
      simp_all

/-- A terminal thread with every timing operand defined. -/
def thC5 : DBTThread :=
  { timestamp := "12:00:05", progress := 1, total := 1, message := "m",
    status := "SUCCESS", started_at := some 1, runtime := some 5,
    blocking_started_at := some 3 }

/-- Witness for C5 at a concrete thread. -/
theorem C5_raw_blocking_formula_witness :
    getRawBlockingTime thC5 = 5 - (3 - 1) :=
  (C5_raw_blocking_formula thC5).1 5 3 1 rfl rfl rfl

/-- C10: `get_runtime` falls back to the live elapsed time whenever the
reported runtime is `0.0` (Python `or` treats it as absent), and uses the
reported runtime exactly when it is nonzero. -/
theorem C10_zero_runtime_fallback (now : ℚ) (t : DBTThread) :
    (∀ st : ℚ, t.runtime = some 0 → t.started_at = some st →
      getRuntime now t = Except.ok (getTimestamp (now - st))) ∧
    (∀ r : ℚ, t.runtime = some r → r ≠ 0 →
      getRuntime now t = Except.ok (getTimestamp r)) := by
  constructor
  · intro st h0 hst
    simp [getRuntime, elapsedTime, liveElapsed, h0, hst, Except.map]
  · intro r hr hne
    simp [getRuntime, elapsedTime, hr, hne, Except.map]

/-- A finished thread whose upstream-reported runtime is exactly zero. -/
def thC10 : DBTThread :=
  { timestamp := "12:00:05", progress := 1, total := 1, message := "m",
    status := "ERROR", started_at := some 2, runtime := some 0 }

/-- Witness for C10 at a concrete thread: the zero runtime is ignored and the
live elapsed time `7 - 2` is formatted instead. -/
theorem C10_zero_runtime_fallback_witness :
    getRuntime 7 thC10 = Except.ok (getTimestamp (7 - 2)) :=
  (C10_zero_runtime_fallback 7 thC10).1 2 rfl rfl

/-- C9: a render cycle that completes without an exception leaves `rewind`
equal to the number of running threads plus one. -/
theorem C9_rewind_eq (now : ℚ) (width : Nat) (s : DBTMonitor)
    (h : (printThreads now width s).2.2 = none) :
    (printThreads now width s).1.rewind = ((runningThreads s).length : Int) + 1 := by
  simp only [printThreads] at h ⊢
  rcases hfc : (formatLines now width ((completedThreads s).map Prod.snd)).2 with _ | e
  · rcases hrl : (runningLoop now width ((runningThreads s).length : Int)
        (runningThreads s)).2.2 with _ | e
    · simp
    · rw [hfc, hrl] at h
      simp at h
  · rw [hfc] at h
    simp at h

/-- Witness for C9 on the fresh monitor: no running threads, `rewind = 1`. -/
theorem C9_rewind_eq_witness :
    (printThreads 0 80 mon0).1.rewind = ((runningThreads mon0).length : Int) + 1 :=
  C9_rewind_eq 0 80 mon0 rfl

lemma le_ljust_length (s : String) (w : Nat) : w ≤ (ljust s w).length := by
  have h1 : (String.mk (List.replicate (w - s.length) ' ')).length
      = w - s.length := by
    show (List.replicate (w - s.length) ' ').length = w - s.length
    exact List.length_replicate _ _
  have h : (ljust s w).length = s.length + (w - s.length) := by
    unfold ljust
    rw [String.length_append, h1]
  omega

lemma formatLines_width (now : ℚ) (width : Nat) :
    ∀ l : List DBTThread, ∀ x ∈ (formatLines now width l).1, width ≤ x.length := by
  intro l
  induction l with
  | nil => intro x hx; exact absurd hx (List.not_mem_nil x)
  | cons t ts ih =>
    intro x hx
    simp only [formatLines] at hx
    rcases hts : threadStr now t with e | str
    · rw [hts] at hx; simp at hx
    · rw [hts] at hx
      simp at hx
      rcases hx with hx | hx
      · subst hx; exact le_ljust_length _ _
      · exact ih x hx

lemma runningLoop_width (now : ℚ) (width : Nat) (n : Int) :
    ∀ l, ∀ x ∈ (runningLoop now width n l).2.1, width ≤ x.length := by
  intro l
  induction l with
  | nil => intro x hx; exact absurd hx (List.not_mem_nil x)
  | cons p ps ih =>
    rcases p with ⟨k, t⟩
    intro x hx
    simp only [runningLoop] at hx
    rcases hts : threadStr now t with e | str
    · rw [hts] at hx; simp at hx
    · rw [hts] at hx
      simp at hx
      rcases hx with hx | hx
      · subst hx; exact le_ljust_length _ _
      · exact ih x hx

lemma printThreads_output (now : ℚ) (width : Nat) (s : DBTMonitor) :
    (printThreads now width s).2.1 =
      (if s.rewind > 0 then [cursorUp s.rewind] else []) ++
        ((formatLines now width ((completedThreads s).map Prod.snd)).1 ++
          (runningLoop now width ((runningThreads s).length : Int)
            (runningThreads s)).2.1) ∨
    (printThreads now width s).2.1 =
      (if s.rewind > 0 then [cursorUp s.rewind] else []) ++
        (formatLines now width ((completedThreads s).map Prod.snd)).1 := by
  simp only [printThreads]
  rcases hfc : (formatLines now width ((completedThreads s).map Prod.snd)).2 with _ | e
  · rcases hrl : (runningLoop now width ((runningThreads s).length : Int)
        (runningThreads s)).2.2 with _ | e <;> simp
  · simp

/-- C8 (amended): with `rewind > 0`, the live renderer emits exactly one
cursor-up control line before the task lines; there is no blank-overwrite
pass, overwriting instead relies on every subsequent line being padded to at
least the terminal width. -/
theorem C8_render_rewind (now : ℚ) (width : Nat) (s : DBTMonitor)
    (h : 0 < s.rewind) :
    ∃ rest, (printThreads now width s).2.1 = cursorUp s.rewind :: rest ∧
      ∀ l ∈ rest, width ≤ l.length := by
  rcases printThreads_output now width s with ho | ho
  · rw [ho, if_pos h]
    refine ⟨(formatLines now width ((completedThreads s).map Prod.snd)).1 ++
      (runningLoop now width ((runningThreads s).length : Int)
        (runningThreads s)).2.1, by simp, ?_⟩
    intro l hl
    rcases List.mem_append.1 hl with hl | hl
    · exact formatLines_width now width _ l hl
    · exact runningLoop_width now width _ _ l hl
  · rw [ho, if_pos h]
    refine ⟨(formatLines now width ((completedThreads s).map Prod.snd)).1, by simp, ?_⟩
    intro l hl
    exact formatLines_width now width _ l hl

/-- A running thread for the renderer counterexample state. -/
def thC8 : DBTThread := mkRunThread "12:00:00" 1 2 "sql view model proj.a" 0

/-- A render state with two previously printed lines to rewind over. -/
def sC8 : DBTMonitor := ⟨[(1, thC8)], [], 2⟩

/-- The redraw prelude the specification describes for `rewind > 0` (cursor
up, `rewind` lines of terminal-width blanks, cursor up again, before any task
line); only the legacy `dbtmon.py` renderer emits it. -/
def specRewindPrelude (rewind : Int) (width : Nat) : List String :=
  [cursorUp rewind] ++
    List.replicate rewind.toNat (String.mk (List.replicate width ' ')) ++
    [cursorUp rewind]

/-- C8 (counterexample): on a concrete state with `rewind = 2` the live
renderer's output does not begin with the specified blank-overwrite prelude —
it prints only one cursor-up line and then the task lines. -/
theorem C8_render_rewind_cex :
    0 < sC8.rewind ∧
    ¬ ∃ rest, (printThreads 0 10 sC8).2.1 = specRewindPrelude sC8.rewind 10 ++ rest := by
  refine ⟨by decide, ?_⟩
  rintro ⟨rest, hrest⟩
  have h2 : (printThreads 0 10 sC8).2.1.length = 2 := by decide
  rw [hrest] at h2
  simp [specRewindPrelude, sC8] at h2

/-- Witness for the amended C8 on the concrete rewind-2 state. -/
theorem C8_render_rewind_witness :
    ∃ rest, (printThreads 0 10 sC8).2.1 = cursorUp sC8.rewind :: rest ∧
      ∀ l ∈ rest, 10 ≤ l.length :=
  C8_render_rewind 0 10 sC8 (by decide)

/-- An archived sole-runner thread whose description ends in a separate
padding-dots token, as dbt emits them. -/
def thC4 : DBTThread :=
  { timestamp := "12:00:00", progress := 1, total := 1,
    message := "OK created sql view model proj.a ....", status := "SUCCESS",
    started_at := some 0, runtime := some 100, min_concurrent_threads := 1,
    blocking_started_at := some 10 }

/-- C4 (counterexample): the diagnostic record's name is taken from the
message *after* `strip(".")`, so for a description whose last
whitespace-delimited token is the padding `"...."` the emitted name is
`"proj.a"`, not that last token. -/
theorem C4_blocking_report_cex :
    (blockingReports 0 [thC4]).1.map BlockingRecord.name = ["proj.a"] ∧
    (pySplitWs thC4.message).getLast? = some "...." := by
  constructor
  · with_unfolding_all rfl
  · with_unfolding_all rfl

/-- C4 (amended): for an archived task whose period-stripped description has
a last token and whose runtime formats without error, the diagnostic pass
emits a record exactly when `min_concurrent = 1` and the raw blocking time is
at least 60 seconds, and the record's name is the last whitespace-delimited
token of the description after stripping leading/trailing periods. -/
theorem C4_blocking_report (now : ℚ) (t : DBTThread) (nm : String)
    (hnm : (pySplitWs (pyStrip t.message '.')).getLast? = some nm)
    (hfmt : ∃ str, getRuntime now t = Except.ok str) :
    ((blockingReports now [t]).1 ≠ [] ↔
      t.min_concurrent_threads = 1 ∧ 60 ≤ getRawBlockingTime t) ∧
    (∀ r, (blockingReports now [t]).1 = [r] → r.name = nm) := by
  obtain ⟨str, hstr⟩ := hfmt
  by_cases h1 : t.min_concurrent_threads = 1
  · by_cases h2 : getRawBlockingTime t < 60
    · simp [blockingReports, h1, h2, not_le.2 h2]
    · have h2le : 60 ≤ getRawBlockingTime t := not_lt.1 h2
      simp [blockingReports, h1, h2, hnm, hstr, h2le]
  · simp [blockingReports, h1]

/-- An archived sole-runner thread with a dot-free description. -/
def thC4W : DBTThread :=
  { timestamp := "12:00:00", progress := 1, total := 1,
    message := "OK created sql view model proj.b", status := "SUCCESS",
    started_at := some 0, runtime := some 100, min_concurrent_threads := 1,
    blocking_started_at := some 10 }

/-- Witness for the amended C4 at a concrete archived thread. -/
theorem C4_blocking_report_witness :
    ((blockingReports 0 [thC4W]).1 ≠ [] ↔
      thC4W.min_concurrent_threads = 1 ∧ 60 ≤ getRawBlockingTime thC4W) ∧
    (∀ r, (blockingReports 0 [thC4W]).1 = [r] → r.name = "proj.b") :=
  C4_blocking_report 0 thC4W "proj.b" (by with_unfolding_all rfl)
    ⟨getTimestamp 100, by with_unfolding_all rfl⟩

/-- A status line with an unrecognized status keyword for an id that was
never started. -/
def c6line : String := "\x1b[0m12:00:00 7 of 9 model x [RUN 5]"

/-- C6: for a syntactically parsing status line whose keyword matches none of
the four cases and whose id is not in the active map, the fallback arm prints
its warning but the subsequent `self.threads[progress]` lookup raises
`KeyError` — the call is not non-fatal as the specification requires. -/
theorem C6_unknown_status_keyerror :
    (processNextLine 0 80 mon0 (some c6line)).error = some (PyError.keyError 7) ∧
    (processNextLine 0 80 mon0 (some c6line)).output = [unknownStatusMsg "RUN 5]"] := by
  constructor
  · with_unfolding_all rfl
  · with_unfolding_all rfl

/-- A status line whose id field is not numeric. -/
def c1line : String := "\x1b[0m12:00:00 x of 5 sql view model a.b .... [RUN]"

/-- C1 (counterexample): a `[RUN`-marked line whose id fails `int()` makes
`process_next_line` raise a `ValueError` instead of behaving like a
continuation line. -/
theorem C1_parse_failure_cex :
    pyStartsWith c1line "\x1b[0m" = true ∧
    containsAnyMarker (stripColors c1line) = true ∧
    (processNextLine 0 80 mon0 (some c1line)).error =
      some (PyError.valueError "invalid literal for int") := by
  refine ⟨by with_unfolding_all rfl, by with_unfolding_all rfl, by with_unfolding_all rfl⟩

/-- C1 (amended): on a marker-carrying status line, a numeric parse failure
on the id or total raises an uncaught `ValueError` with the state and output
untouched; a parse failure on the runtime field of an `ERROR` line whose id
is active raises an uncaught `ValueError` only after the task's timestamp,
message and status have already been overwritten. -/
theorem C1_parse_failure (now : ℚ) (width : Nat) (s : DBTMonitor)
    (stmt msg status idTok ofTok totTok : String) (rest : List String)
    (h1 : pyStartsWith stmt "\x1b[0m" = true)
    (h2 : containsAnyMarker (stripColors stmt) = true)
    (h3 : splitFirst (strDrop (stripColors stmt) 9) "[" = [msg, status])
    (h4 : pySplitWs msg = idTok :: ofTok :: totTok :: rest) :
    (pyInt? idTok = none ∨ pyInt? totTok = none →
      processNextLine now width s (some stmt) =
        ⟨s, [], some (PyError.valueError "invalid literal for int")⟩) ∧
    (∀ p tt rt, pyInt? idTok = some p → pyInt? totTok = some tt →
      pySplitWs (pyRstrip status ']') = ["ERROR", "in", rt] →
      dictHas s.threads p = true →
      pyFloat? (strDropLast rt) = none →
      processNextLine now width s (some stmt) =
        ⟨{ s with
            threads := dictModify s.threads p (fun th =>
              { th with
                timestamp := strTake (stripColors stmt) 8,
                message := String.intercalate " " rest,
                status := "ERROR" }) },
          [], some (PyError.valueError "could not convert string to float")⟩) := by
  constructor
  · rintro (h5 | h5)
    · cases h6 : pyInt? totTok <;>
        simp [processNextLine, h1, h2, processStatusLine, h3, h4, h5, h6]
    · cases h6 : pyInt? idTok <;>
        simp [processNextLine, h1, h2, processStatusLine, h3, h4, h5, h6]
  · intro p tt rt hp htt h7 h8 h9
    simp [processNextLine, h1, h2, processStatusLine, h3, h4, hp, htt,
      processEvent, applyStatusCase, h7, h8, h9]

/-- Witness for the amended C1: the concrete bad-id line raises and leaves
the fresh monitor untouched. -/
theorem C1_parse_failure_witness :
    processNextLine 0 80 mon0 (some c1line) =
      ⟨mon0, [], some (PyError.valueError "invalid literal for int")⟩ :=
  (C1_parse_failure 0 80 mon0 c1line "x of 5 sql view model a.b .... " "RUN]"
    "x" "of" "5" ["sql", "view", "model", "a.b", "...."]
    (by with_unfolding_all rfl) (by with_unfolding_all rfl)
    (by with_unfolding_all rfl) (by with_unfolding_all rfl)).1
    (Or.inl (by with_unfolding_all rfl))

/-- C2: a `Finished` (ERROR or SUCCESS) status line for an id absent from the
active map raises the unknown-thread `ValueError` and returns the state
exactly as it was — active map, archive and rewind untouched, nothing
printed. -/
theorem C2_unknown_finished (now : ℚ) (width : Nat) (s : DBTMonitor)
    (stmt msg status idTok ofTok totTok rt cd : String) (rest : List String)
    (p t : Int)
    (h1 : pyStartsWith stmt "\x1b[0m" = true)
    (h2 : containsAnyMarker (stripColors stmt) = true)
    (h3 : splitFirst (strDrop (stripColors stmt) 9) "[" = [msg, status])
    (h4 : pySplitWs msg = idTok :: ofTok :: totTok :: rest)
    (h5 : pyInt? idTok = some p) (h6 : pyInt? totTok = some t)
    (h7 : pySplitWs (pyRstrip status ']') = ["ERROR", "in", rt] ∨
          pySplitWs (pyRstrip status ']') = ["SUCCESS", cd, "in", rt])
    (h8 : dictHas s.threads p = false) :
    processNextLine now width s (some stmt) =
      ⟨s, [], some (PyError.valueError (threadNotFoundMsg p))⟩ := by
  rcases h7 with h7 | h7 <;>
    simp [processNextLine, h1, h2, processStatusLine, h3, h4, h5, h6,
      processEvent, applyStatusCase, h7, h8]

/-- A `Finished` line for an id with no prior start. -/
def c2line : String := "\x1b[0m12:00:05 7 of 9 model x [ERROR in 5.0s]"

/-- Witness for C2 on the fresh monitor. -/
theorem C2_unknown_finished_witness :
    processNextLine 0 80 mon0 (some c2line) =
      ⟨mon0, [], some (PyError.valueError (threadNotFoundMsg 7))⟩ :=
  C2_unknown_finished 0 80 mon0 c2line "7 of 9 model x " "ERROR in 5.0s]"
    "7" "of" "9" "5.0s" "0" ["model", "x"] 7 9
    (by with_unfolding_all rfl) (by with_unfolding_all rfl)
    (by with_unfolding_all rfl) (by with_unfolding_all rfl)
    (by with_unfolding_all rfl) (by with_unfolding_all rfl)
    (Or.inl (by with_unfolding_all rfl)) (by with_unfolding_all rfl)

/-- Three overlapping starts, then task 1 and task 3 finish (task 3 with a
small upstream-reported runtime), exercising the concurrency bookkeeping. -/
def lineC3a : String := "\x1b[0m12:00:00 1 of 3 START sql view model proj.a .... [RUN]"

/-- Second concurrent start. -/
def lineC3b : String := "\x1b[0m12:00:05 2 of 3 START sql view model proj.b .... [RUN]"

/-- Third concurrent start. -/
def lineC3c : String := "\x1b[0m12:00:10 3 of 3 START sql view model proj.c .... [RUN]"

/-- Task 1 finishes while 2 and 3 still run. -/
def lineC3d : String := "\x1b[0m12:00:20 1 of 3 ERROR creating sql view model proj.a .... [ERROR in 20.0s]"

/-- Task 3 finishes with a reported runtime of one second. -/
def lineC3e : String := "\x1b[0m12:00:30 3 of 3 ERROR creating sql view model proj.c .... [ERROR in 1.0s]"

/-- State after the first start (render time 0). -/
def stC3a : DBTMonitor := (processNextLine 0 20 mon0 (some lineC3a)).state

/-- State after the second start (render time 5). -/
def stC3b : DBTMonitor := (processNextLine 5 20 stC3a (some lineC3b)).state

/-- State after the third start (render time 10). -/
def stC3c : DBTMonitor := (processNextLine 10 20 stC3b (some lineC3c)).state

/-- State after task 1 finishes (render time 20). -/
def stC3d : DBTMonitor := (processNextLine 20 20 stC3c (some lineC3d)).state

/-- State after task 3 finishes (render time 30). -/
def stC3e : DBTMonitor := (processNextLine 30 20 stC3d (some lineC3e)).state

/-- C3 (counterexample): after this run, archived task 3 has
`min_concurrent = 2` (it was never the sole runner) yet its
`blocking_started_at` is set, and with `runtime` and `started_at` also
defined its raw blocking time is `-9`: nonzero with `min_concurrent ≠ 1` and
negative with all operands defined — all three conjuncts of the claim fail. -/
theorem C3_blocking_capture_cex :
    (stC3e.completed.drop 1).map (fun th =>
      (th.min_concurrent_threads, th.blocking_started_at.isSome,
        th.runtime.isSome, th.started_at.isSome, getRawBlockingTime th))
      = [(2, true, true, true, -9)] := by
  with_unfolding_all rfl

/-- C3 (amended): a render cycle sets `blocking_started_at` exactly when the
running count is below the task's current minimum — in particular already on
the first cycle that observes the task (the minimum starts at the 999
sentinel), regardless of whether concurrency ever reached 1 — and the raw
blocking time is zero whenever any of its operands is undefined. -/
theorem C3_blocking_capture (now : ℚ) (n : Int) (t : DBTThread) :
    ((bookkeep now n t).blocking_started_at =
      if n < t.min_concurrent_threads then some now else t.blocking_started_at) ∧
    ((bookkeep now n t).min_concurrent_threads = min t.min_concurrent_threads n) ∧
    (t.runtime = none ∨ t.blocking_started_at = none ∨ t.started_at = none →
      getRawBlockingTime t = 0) := by
  refine ⟨?_, ?_, ?_⟩
  · by_cases hc : n < t.min_concurrent_threads <;> simp [bookkeep, hc]
  · by_cases hc : n < t.min_concurrent_threads <;> simp [bookkeep, hc]
  · intro h
    unfold getRawBlockingTime
    rcases hru : t.runtime with _ | r <;>
      rcases hbl : t.blocking_started_at with _ | b <;>
      rcases hst : t.started_at with _ | st <;>
      simp_all

/-- Witness for the amended C3 on a fresh thread observed by a cycle with
two runners: `2 < 999` so the capture time is recorded. -/
theorem C3_blocking_capture_witness :
    ((bookkeep 4 2 thC8).blocking_started_at =
      if (2 : Int) < thC8.min_concurrent_threads then some 4
      else thC8.blocking_started_at) ∧
    ((bookkeep 4 2 thC8).min_concurrent_threads =
      min thC8.min_concurrent_threads 2) ∧
    (thC8.runtime = none ∨ thC8.blocking_started_at = none ∨
      thC8.started_at = none → getRawBlockingTime thC8 = 0) :=
  C3_blocking_capture 4 2 thC8

lemma dictGet?_cons (a : Int × DBTThread) (l : List (Int × DBTThread)) (k : Int) :
    dictGet? (a :: l) k = if a.1 = k then some a.2 else dictGet? l k := by
  by_cases h : a.1 = k <;> simp [dictGet?, List.find?_cons, h]

lemma mergeUpdates_cons (a : Int × DBTThread) (d ups : List (Int × DBTThread)) :
    mergeUpdates (a :: d) ups =
      (match ups.find? (fun q => q.1 = a.1) with
       | some q => q
       | none => a) :: mergeUpdates d ups := rfl

lemma find?_key (l : List (Int × DBTThread)) (k : Int) (q : Int × DBTThread) :
    l.find? (fun r => r.1 = k) = some q → q.1 = k ∧ q ∈ l := by
  induction l with
  | nil => intro h; cases h
  | cons a rest ih =>
    intro h
    rw [List.find?_cons] at h
    by_cases ha : a.1 = k
    · simp [ha] at h
      subst h
      exact ⟨ha, List.mem_cons_self a rest⟩
    · simp [ha] at h
      rcases ih h with ⟨h1, h2⟩
      exact ⟨h1, List.mem_cons_of_mem a h2⟩

lemma mergeUpdates_get_of_none (d ups : List (Int × DBTThread)) (k : Int)
    (h : ups.find? (fun q => q.1 = k) = none) :
    dictGet? (mergeUpdates d ups) k = dictGet? d k := by
  induction d with
  | nil => rfl
  | cons a rest ih =>
    rw [mergeUpdates_cons]
    rcases hfa : ups.find? (fun q => q.1 = a.1) with _ | q
    · simp only [hfa]
      rw [dictGet?_cons, dictGet?_cons]
      by_cases hk : a.1 = k <;> simp [hk, ih]
    · simp only [hfa]
      have hq1 : q.1 = a.1 := (find?_key ups a.1 q hfa).1
      rw [dictGet?_cons, dictGet?_cons]
      by_cases hk : a.1 = k
      · subst hk
        rw [hfa] at h
        cases h
      · simp [hq1, hk, ih]

lemma runningLoop_keys (now : ℚ) (width : Nat) (n : Int) :
    ∀ l, ((runningLoop now width n l).1).map Prod.fst = l.map Prod.fst := by
  intro l
  induction l with
  | nil => rfl
  | cons a rest ih =>
    rcases a with ⟨k, t⟩
    simp only [runningLoop]
    rcases h : threadStr now t with e | str
    · simp
    · simp [ih]

lemma find?_none_of_not_mem_keys (l : List (Int × DBTThread)) (k : Int)
    (h : k ∉ l.map Prod.fst) : l.find? (fun q => q.1 = k) = none := by
  rw [List.find?_eq_none]
  intro q hq
  simp only [decide_eq_true_eq]
  intro hk
  exact h (hk ▸ List.mem_map_of_mem Prod.fst hq)

lemma not_mem_running_keys (s : DBTMonitor) (k : Int)
    (hall : ∀ q ∈ s.threads, q.1 = k → q.2.status ≠ "RUN") :
    k ∉ (runningThreads s).map Prod.fst := by
  intro hmem
  rcases List.mem_map.1 hmem with ⟨q, hq, hqk⟩
  have hq2 := List.mem_filter.1 hq
  exact hall q hq2.1 hqk (of_decide_eq_true hq2.2)

lemma printThreads_threads (now : ℚ) (width : Nat) (s : DBTMonitor) :
    (printThreads now width s).1.threads = s.threads ∨
    (printThreads now width s).1.threads =
      mergeUpdates s.threads
        (runningLoop now width ((runningThreads s).length : Int)
          (runningThreads s)).1 := by
  simp only [printThreads]
  rcases hfc : (formatLines now width ((completedThreads s).map Prod.snd)).2 with _ | e
  · rcases hrl : (runningLoop now width ((runningThreads s).length : Int)
        (runningThreads s)).2.2 with _ | e <;> simp
  · simp

lemma printThreads_get_keep (now : ℚ) (width : Nat) (s : DBTMonitor) (k : Int)
    (hall : ∀ q ∈ s.threads, q.1 = k → q.2.status ≠ "RUN") :
    dictGet? ((printThreads now width s).1.threads) k = dictGet? s.threads k := by
  rcases printThreads_threads now width s with h | h
  · rw [h]
  · rw [h]
    apply mergeUpdates_get_of_none
    apply find?_none_of_not_mem_keys
    rw [runningLoop_keys]
    exact not_mem_running_keys s k hall

lemma printThreads_completed (now : ℚ) (width : Nat) (s : DBTMonitor) :
    (printThreads now width s).1.completed = s.completed := by
  simp only [printThreads]
  rcases hfc : (formatLines now width ((completedThreads s).map Prod.snd)).2 with _ | e
  · rcases hrl : (runningLoop now width ((runningThreads s).length : Int)
        (runningThreads s)).2.2 with _ | e <;> simp
  · simp

lemma applyStatusCase_completed (now : ℚ) (s : DBTMonitor) (ts : String)
    (p t : Int) (text status : String) :
    (applyStatusCase now s ts p t text status).1.completed = s.completed := by
  simp only [applyStatusCase]
  repeat' split
  all_goals simp

lemma dictDel_has (d : List (Int × DBTThread)) (k : Int) :
    dictHas (dictDel d k) k = false := by
  induction d with
  | nil => rfl
  | cons a rest ih =>
    by_cases h : a.1 = k <;>
      simp only [dictDel, dictHas, List.filter, h] at ih ⊢ <;>
      simp [h, ih]

lemma dictHas_dictModify (d : List (Int × DBTThread)) (k : Int)
    (f : DBTThread → DBTThread) (j : Int) :
    dictHas (dictModify d k f) j = dictHas d j := by
  induction d with
  | nil => rfl
  | cons a rest ih =>
    by_cases h : a.1 = k <;> simp [dictModify, dictHas, h] at ih ⊢ <;>
      rw [ih]

lemma mem_dictModify_key (d : List (Int × DBTThread)) (k : Int)
    (f : DBTThread → DBTThread) :
    ∀ q ∈ dictModify d k f, q.1 = k → ∃ a ∈ d, a.1 = k ∧ q.2 = f a.2 := by
  intro q hq hqk
  rcases List.mem_map.1 hq with ⟨a, ha, heq⟩
  by_cases hak : a.1 = k
  · rw [if_pos hak] at heq
    subst heq
    exact ⟨a, ha, hak, rfl⟩
  · rw [if_neg hak] at heq
    subst heq
    exact absurd hqk hak

lemma mem_dictSet_key (d : List (Int × DBTThread)) (k : Int) (v : DBTThread) :
    ∀ q ∈ dictSet d k v, q.1 = k → q.2 = v := by
  intro q hq hqk
  unfold dictSet at hq
  by_cases hh : dictHas d k = true
  · rw [if_pos hh] at hq
    rcases List.mem_map.1 hq with ⟨a, _, heq⟩
    by_cases hak : a.1 = k
    · rw [if_pos hak] at heq
      subst heq
      rfl
    · rw [if_neg hak] at heq
      subst heq
      exact absurd hqk hak
  · rw [if_neg hh] at hq
    rcases List.mem_append.1 hq with hq | hq
    · exfalso
      apply hh
      unfold dictHas
      exact List.any_eq_true.2 ⟨q, hq, by simp [hqk]⟩
    · simp at hq
      subst hq
      rfl

lemma dictGet?_of_has (d : List (Int × DBTThread)) (k : Int)
    (h : dictHas d k = true) :
    ∃ v, dictGet? d k = some v ∧ (k, v) ∈ d := by
  unfold dictHas at h
  rcases List.any_eq_true.1 h with ⟨q, hq, hqk⟩
  have hs : (d.find? (fun p => p.1 = k)).isSome = true := by
    rw [List.find?_isSome]
    exact ⟨q, hq, hqk⟩
  rcases ho : d.find? (fun p => p.1 = k) with _ | q2
  · rw [ho] at hs
    cases hs
  · rcases find?_key d k q2 ho with ⟨h1, h2⟩
    rcases q2 with ⟨kq, vq⟩
    simp only at h1
    subst h1
    exact ⟨vq, by simp [dictGet?, ho], h2⟩

lemma processEvent_error_propagates (now : ℚ) (width : Nat) (s : DBTMonitor)
    (ts : String) (p t : Int) (text status : String) (e : PyError)
    (ha : (applyStatusCase now s ts p t text status).2.2 = some e) :
    (processEvent now width s ts p t text status).error = some e := by
  simp only [processEvent]
  rw [ha]

lemma processEvent_completed (now : ℚ) (width : Nat) (s : DBTMonitor)
    (ts : String) (p t : Int) (text status : String) :
    ∃ tail, (processEvent now width s ts p t text status).state.completed
      = s.completed ++ tail := by
  simp only [processEvent]
  rcases ha : (applyStatusCase now s ts p t text status).2.2 with _ | e
  · rcases hpr : (printThreads now width
        (applyStatusCase now s ts p t text status).1).2.2 with _ | e2
    · rcases hg : dictGet? (printThreads now width
          (applyStatusCase now s ts p t text status).1).1.threads p with _ | th
      · exact ⟨[], by simp [printThreads_completed, applyStatusCase_completed]⟩
      · by_cases hrun : th.status = "RUN"
        · exact ⟨[], by simp [hrun, printThreads_completed, applyStatusCase_completed]⟩
        · exact ⟨[th], by simp [hrun, printThreads_completed, applyStatusCase_completed]⟩
    · exact ⟨[], by simp [printThreads_completed, applyStatusCase_completed]⟩
  · exact ⟨[], by simp [applyStatusCase_completed]⟩

lemma processStatusLine_completed (now : ℚ) (width : Nat) (s : DBTMonitor)
    (stripped : String) :
    ∃ tail, (processStatusLine now width s stripped).state.completed
      = s.completed ++ tail := by
  simp only [processStatusLine]
  rcases hsp : splitFirst (strDrop stripped 9) "[" with _ | ⟨m1, l1⟩
  · exact ⟨[], by simp [hsp]⟩
  · rcases l1 with _ | ⟨m2, l2⟩
    · exact ⟨[], by simp [hsp]⟩
    · rcases l2 with _ | ⟨m3, l3⟩
      · rcases hws : pySplitWs m1 with _ | ⟨t1, w1⟩
        · exact ⟨[], by simp [hsp, hws]⟩
        · rcases w1 with _ | ⟨t2, w2⟩
          · exact ⟨[], by simp [hsp, hws]⟩
          · rcases w2 with _ | ⟨t3, w3⟩
            · exact ⟨[], by simp [hsp, hws]⟩
            · rcases hi1 : pyInt? t1 with _ | p1
              · rcases hi2 : pyInt? t3 with _ | p3
                · exact ⟨[], by simp [hsp, hws, hi1, hi2]⟩
                · exact ⟨[], by simp [hsp, hws, hi1, hi2]⟩
              · rcases hi2 : pyInt? t3 with _ | p3
                · exact ⟨[], by simp [hsp, hws, hi1, hi2]⟩
                · simpa [hsp, hws, hi1, hi2] using
                    processEvent_completed now width s (strTake stripped 8)
                      p1 p3 (String.intercalate " " w3) m2
      · exact ⟨[], by simp [hsp]⟩

lemma processNextLine_completed (now : ℚ) (width : Nat) (s : DBTMonitor)
    (statement : Option String) :
    ∃ tail, (processNextLine now width s statement).state.completed
      = s.completed ++ tail := by
  rcases statement with _ | stmt
  · exact ⟨[], by simp [processNextLine]⟩
  · simp only [processNextLine]
    by_cases h1 : pyStartsWith stmt "\x1b[0m" = false
    · exact ⟨[], by simp [h1]⟩
    · by_cases h2 : containsAnyMarker (stripColors stmt) = false
      · exact ⟨[], by simp [h1, h2]⟩
      · simpa [h1, h2] using
          processStatusLine_completed now width s (stripColors stmt)

lemma dictHas_dictSet_self (d : List (Int × DBTThread)) (k : Int) (v : DBTThread) :
    dictHas (dictSet d k v) k = true := by
  unfold dictSet
  by_cases h : dictHas d k = true
  · rw [if_pos h]
    rcases List.any_eq_true.1 h with ⟨q, hq, hqk⟩
    apply List.any_eq_true.2
    refine ⟨if q.1 = k then (k, v) else q, List.mem_map_of_mem _ hq, ?_⟩
    have hqk2 : q.1 = k := of_decide_eq_true hqk
    simp [hqk2]
  · rw [if_neg h]
    apply List.any_eq_true.2
    exact ⟨(k, v), List.mem_append_right _ (by simp), by simp⟩

lemma processEvent_archives (now : ℚ) (width : Nat) (s : DBTMonitor)
    (ts : String) (p t : Int) (text status : String)
    (hnone : (applyStatusCase now s ts p t text status).2.2 = none)
    (hall : ∀ q ∈ (applyStatusCase now s ts p t text status).1.threads,
      q.1 = p → q.2.status ≠ "RUN")
    (hhas : dictHas (applyStatusCase now s ts p t text status).1.threads p = true)
    (hok : (processEvent now width s ts p t text status).error = none) :
    ∃ th, th.status ≠ "RUN" ∧
      (processEvent now width s ts p t text status).state.completed
        = s.completed ++ [th] ∧
      dictHas (processEvent now width s ts p t text status).state.threads p
        = false := by
  have hkeep := printThreads_get_keep now width
    (applyStatusCase now s ts p t text status).1 p hall
  rcases dictGet?_of_has _ p hhas with ⟨v, hv, hvmem⟩
  have hvs : v.status ≠ "RUN" := hall (p, v) hvmem rfl
  have hget : dictGet? (printThreads now width
      (applyStatusCase now s ts p t text status).1).1.threads p = some v := by
    rw [hkeep, hv]
  simp only [processEvent] at hok ⊢
  rcases hpr : (printThreads now width
      (applyStatusCase now s ts p t text status).1).2.2 with _ | e2
  · refine ⟨v, hvs, ?_, ?_⟩
    · simp [hnone, hpr, hget, hvs, printThreads_completed, applyStatusCase_completed]
    · simp [hnone, hpr, hget, hvs, dictDel_has]
  · rw [hnone] at hok
    simp [hpr] at hok

/-- C7: the archive is append-only across every `process_next_line` call
(the prior archive is always a prefix of the new one, so an archived record
is never removed or re-activated), and a successfully processed terminal
event (ERROR, SUCCESS or SKIP status) appends exactly one terminal record to
the archive while removing its id from the active map. -/
theorem C7_terminal_archival :
    (∀ (now : ℚ) (width : Nat) (s : DBTMonitor) (statement : Option String),
      ∃ tail, (processNextLine now width s statement).state.completed
        = s.completed ++ tail) ∧
    (∀ (now : ℚ) (width : Nat) (s : DBTMonitor)
      (stmt msg status idTok ofTok totTok rt cd : String) (rest : List String)
      (p t : Int),
      pyStartsWith stmt "\x1b[0m" = true →
      containsAnyMarker (stripColors stmt) = true →
      splitFirst (strDrop (stripColors stmt) 9) "[" = [msg, status] →
      pySplitWs msg = idTok :: ofTok :: totTok :: rest →
      pyInt? idTok = some p → pyInt? totTok = some t →
      (pySplitWs (pyRstrip status ']') = ["ERROR", "in", rt] ∨
       pySplitWs (pyRstrip status ']') = ["SUCCESS", cd, "in", rt] ∨
       pySplitWs (pyRstrip status ']') = ["SKIP"]) →
      (processNextLine now width s (some stmt)).error = none →
      ∃ th, th.status ≠ "RUN" ∧
        (processNextLine now width s (some stmt)).state.completed
          = s.completed ++ [th] ∧
        dictHas (processNextLine now width s (some stmt)).state.threads p
          = false) := by
  constructor
  · exact processNextLine_completed
  · intro now width s stmt msg status idTok ofTok totTok rt cd rest p t
      h1 h2 h3 h4 h5 h6 harm hok
    have hred : processNextLine now width s (some stmt) =
        processEvent now width s (strTake (stripColors stmt) 8) p t
          (String.intercalate " " rest) status := by
      simp [processNextLine, h1, h2, processStatusLine, h3, h4, h5, h6]
    rw [hred] at hok ⊢
    rcases harm with h7 | h7 | h7
    · by_cases hhas0 : dictHas s.threads p = true
      · rcases hfl : pyFloat? (strDropLast rt) with _ | r
        · exfalso
          have ha : (applyStatusCase now s (strTake (stripColors stmt) 8) p t
              (String.intercalate " " rest) status).2.2 =
              some (PyError.valueError "could not convert string to float") := by
            simp [applyStatusCase, h7, hhas0, hfl]
          rw [processEvent_error_propagates now width s _ p t _ status _ ha] at hok
          exact Option.noConfusion hok
        · have hthreads : (applyStatusCase now s (strTake (stripColors stmt) 8)
              p t (String.intercalate " " rest) status).1.threads =
              dictModify (dictModify s.threads p (fun th =>
                { th with
                  timestamp := strTake (stripColors stmt) 8,
                  message := String.intercalate " " rest,
                  status := "ERROR" })) p
                (fun th => { th with runtime := some r }) := by
            simp [applyStatusCase, h7, hhas0, hfl]
          apply processEvent_archives
          · simp [applyStatusCase, h7, hhas0, hfl]
          · intro q hq hqk
            rw [hthreads] at hq
            rcases mem_dictModify_key _ p _ q hq hqk with ⟨a, ha2, hak, hq2⟩
            rcases mem_dictModify_key _ p _ a ha2 hak with ⟨b, _, _, ha3⟩
            rw [hq2, ha3]
            simp
          · rw [hthreads, dictHas_dictModify, dictHas_dictModify]
            exact hhas0
          · exact hok
      · exfalso
        have hhf : dictHas s.threads p = false := by simpa using hhas0
        have ha : (applyStatusCase now s (strTake (stripColors stmt) 8) p t
            (String.intercalate " " rest) status).2.2 =
            some (PyError.valueError (threadNotFoundMsg p)) := by
          simp [applyStatusCase, h7, hhf]
        rw [processEvent_error_propagates now width s _ p t _ status _ ha] at hok
        exact Option.noConfusion hok
    · by_cases hhas0 : dictHas s.threads p = true
      · rcases hfl : pyFloat? (strDropLast rt) with _ | r
        · exfalso
          have ha : (applyStatusCase now s (strTake (stripColors stmt) 8) p t
              (String.intercalate " " rest) status).2.2 =
              some (PyError.valueError "could not convert string to float") := by
            simp [applyStatusCase, h7, hhas0, hfl]
          rw [processEvent_error_propagates now width s _ p t _ status _ ha] at hok
          exact Option.noConfusion hok
        · rcases hcode : pyInt? cd with _ | c
          · exfalso
            have ha : (applyStatusCase now s (strTake (stripColors stmt) 8) p t
                (String.intercalate " " rest) status).2.2 =
                some (PyError.valueError "invalid literal for int") := by
              simp [applyStatusCase, h7, hhas0, hfl, hcode]
            rw [processEvent_error_propagates now width s _ p t _ status _ ha] at hok
            exact Option.noConfusion hok
          · have hthreads : (applyStatusCase now s (strTake (stripColors stmt) 8)
                p t (String.intercalate " " rest) status).1.threads =
                dictModify (dictModify (dictModify s.threads p (fun th =>
                  { th with
                    timestamp := strTake (stripColors stmt) 8,
                    message := String.intercalate " " rest,
                    status := "SUCCESS" })) p
                  (fun th => { th with runtime := some r })) p
                  (fun th => { th with exit_code := c }) := by
              simp [applyStatusCase, h7, hhas0, hfl, hcode]
            apply processEvent_archives
            · simp [applyStatusCase, h7, hhas0, hfl, hcode]
            · intro q hq hqk
              rw [hthreads] at hq
              rcases mem_dictModify_key _ p _ q hq hqk with ⟨a, ha2, hak, hq2⟩
              rcases mem_dictModify_key _ p _ a ha2 hak with ⟨b, hb2, hbk, ha3⟩
              rcases mem_dictModify_key _ p _ b hb2 hbk with ⟨d2, _, _, hb3⟩
              rw [hq2, ha3, hb3]
              simp
            · rw [hthreads, dictHas_dictModify, dictHas_dictModify,
                dictHas_dictModify]
              exact hhas0
            · exact hok
      · exfalso
        have hhf : dictHas s.threads p = false := by simpa using hhas0
        have ha : (applyStatusCase now s (strTake (stripColors stmt) 8) p t
            (String.intercalate " " rest) status).2.2 =
            some (PyError.valueError (threadNotFoundMsg p)) := by
          simp [applyStatusCase, h7, hhf]
        rw [processEvent_error_propagates now width s _ p t _ status _ ha] at hok
        exact Option.noConfusion hok
    · have hthreads : (applyStatusCase now s (strTake (stripColors stmt) 8)
          p t (String.intercalate " " rest) status).1.threads =
          dictSet s.threads p (mkSkipThread (strTake (stripColors stmt) 8)
            p t (String.intercalate " " rest)) := by
        simp [applyStatusCase, h7]
      apply processEvent_archives
      · simp [applyStatusCase, h7]
      · intro q hq hqk
        rw [hthreads] at hq
        rw [mem_dictSet_key _ p _ q hq hqk]
        simp [mkSkipThread]
      · rw [hthreads]
        exact dictHas_dictSet_self _ _ _
      · exact hok

/-- A start line for task 7, preparing the archival witness state. -/
def c7run : String := "\x1b[0m12:00:00 7 of 9 START sql view model proj.x .... [RUN]"

/-- State with task 7 running. -/
def sC7 : DBTMonitor := (processNextLine 0 20 mon0 (some c7run)).state

/-- Witness for C7: finishing running task 7 archives exactly one terminal
record and removes id 7 from the active map. -/
theorem C7_terminal_archival_witness :
    ∃ th, th.status ≠ "RUN" ∧
      (processNextLine 5 20 sC7 (some c2line)).state.completed
        = sC7.completed ++ [th] ∧
      dictHas (processNextLine 5 20 sC7 (some c2line)).state.threads 7 = false :=
  C7_terminal_archival.2 5 20 sC7 c2line "7 of 9 model x " "ERROR in 5.0s]"
    "7" "of" "9" "5.0s" "0" ["model", "x"] 7 9
    (by with_unfolding_all rfl) (by with_unfolding_all rfl)
    (by with_unfolding_all rfl) (by with_unfolding_all rfl)
    (by with_unfolding_all rfl) (by with_unfolding_all rfl)
    (Or.inl (by with_unfolding_all rfl)) (by with_unfolding_all rfl)
